import Mathlib

/-!
# ChibiOS/RT ARMv6-M port layer (`os/rt/ports/ARMCMx/chcore_v6m.h`)

A shallow embedding of the port header: the context records, the working-area
sizing macros, the initial-frame setup, the guarded context switch, the
critical-section primitives and the priority constants, followed by the
properties established about them.

Machine words are natural numbers reduced modulo `2 ^ 32` (the target has
32-bit `size_t` and 32-bit pointers).
-/

namespace ChibiOS

/-! ## 32-bit machine arithmetic -/

/-- Unsigned 32-bit addition, wrapping. -/
def add32 (a b : Nat) : Nat := (a + b) % 4294967296

/-- Unsigned 32-bit subtraction, wrapping. -/
def sub32 (a b : Nat) : Nat := (a % 4294967296 + (4294967296 - b % 4294967296)) % 4294967296

/-- Bitwise or of two 32-bit words. -/
def or32 (a b : Nat) : Nat := (a ||| b) % 4294967296

/-! ## Build-time configuration -/

/-- The pre-compile time settings the header reads: each has a default in the
header and may be overridden by the build. `sizeof_thread_t` is the size of the
kernel's `thread_t`, which the header uses but does not declare. -/
structure Config where
  CH_PORT_IDLE_THREAD_STACK_SIZE : Nat
  CH_PORT_INT_REQUIRED_STACK : Nat
  CORTEX_ENABLE_WFI_IDLE : Bool
  CORTEX_ALTERNATE_SWITCH : Bool
  CH_DBG_ENABLE_STACK_CHECK : Bool
  sizeof_thread_t : Nat

/-- The header's defaults (`#if !defined(...)` branches), for a given
`thread_t` size and stack-check setting. -/
def Config.default (sizeof_thread_t : Nat) (stackCheck : Bool) : Config :=
  { CH_PORT_IDLE_THREAD_STACK_SIZE := 16
    CH_PORT_INT_REQUIRED_STACK := 32
    CORTEX_ENABLE_WFI_IDLE := false
    CORTEX_ALTERNATE_SWITCH := false
    CH_DBG_ENABLE_STACK_CHECK := stackCheck
    sizeof_thread_t := sizeof_thread_t }

/-- `CORTEX_PRIORITY_PENDSV`: PendSV priority level. -/
def CORTEX_PRIORITY_PENDSV : Nat := 0

/-- `CORTEX_MAX_KERNEL_PRIORITY`: maximum usable priority for normal ISRs. -/
def CORTEX_MAX_KERNEL_PRIORITY (cfg : Config) : Nat :=
  if cfg.CORTEX_ALTERNATE_SWITCH then 1 else 0

/-! ## Data structures -/

/-- `sizeof(regarm_t)`: a generic ARM register is a `void *`, four bytes. -/
def sizeof_regarm_t : Nat := 4

/-- `sizeof(stkalign_t)`: `stkalign_t` is `uint64_t`. -/
def sizeof_stkalign_t : Nat := 8

/-- Fields of `struct extctx`, in declaration order. -/
inductive extctx_field where
  | r0 | r1 | r2 | r3 | r12 | lr_thd | pc | xpsr
  deriving DecidableEq, Repr

/-- Fields of `struct intctx`, in declaration order. -/
inductive intctx_field where
  | r8 | r9 | r10 | r11 | r4 | r5 | r6 | r7 | lr
  deriving DecidableEq, Repr

/-- All fields of `struct extctx` in memory order. -/
def extctx_fields : List extctx_field :=
  [.r0, .r1, .r2, .r3, .r12, .lr_thd, .pc, .xpsr]

/-- All fields of `struct intctx` in memory order. -/
def intctx_fields : List intctx_field :=
  [.r8, .r9, .r10, .r11, .r4, .r5, .r6, .r7, .lr]

/-- `sizeof(struct extctx)`: eight registers, no padding. -/
def sizeof_extctx : Nat := sizeof_regarm_t * extctx_fields.length

/-- `sizeof(struct intctx)`: nine registers, no padding. -/
def sizeof_intctx : Nat := sizeof_regarm_t * intctx_fields.length

/-- Byte offset of a field inside `struct intctx`. -/
def intctx_offset (f : intctx_field) : Nat :=
  sizeof_regarm_t * intctx_fields.indexOf f

/-! ## Working-area sizing macros -/

/-- `STACK_ALIGN(n)`: `((((n) - 1) | (sizeof(stkalign_t) - 1)) + 1)` in
`size_t` arithmetic. -/
def STACK_ALIGN (n : Nat) : Nat :=
  add32 (or32 (sub32 n 1) (sub32 sizeof_stkalign_t 1)) 1

/-- `THD_WA_SIZE(n)`: `STACK_ALIGN(sizeof(thread_t) + sizeof(struct intctx) +
sizeof(struct extctx) + (n) + (CH_PORT_INT_REQUIRED_STACK))`. -/
def THD_WA_SIZE (cfg : Config) (n : Nat) : Nat :=
  STACK_ALIGN
    (add32 (add32 (add32 (add32 cfg.sizeof_thread_t sizeof_intctx) sizeof_extctx) n)
      cfg.CH_PORT_INT_REQUIRED_STACK)

/-- `WORKING_AREA(s, n)`: the number of `stkalign_t` elements of the array
`s[THD_WA_SIZE(n) / sizeof(stkalign_t)]`. -/
def WORKING_AREA_len (cfg : Config) (n : Nat) : Nat :=
  THD_WA_SIZE cfg n / sizeof_stkalign_t

/-! ## Machine state -/

/-- `struct context`: the platform dependent part of `thread_t`; it holds the
saved stack pointer, a pointer to the `intctx` frame on the thread's stack. -/
structure context where
  r13 : Nat

/-- The fields of the kernel's `thread_t` that the port header accesses
(`p_ctx` and, with the stack check enabled, `p_stklimit`). -/
structure thread_t where
  p_ctx : context
  p_stklimit : Nat

/-- The state the port layer acts on: the PRIMASK bit, the process stack
pointer, the IPSR exception number, the exception priority levels by
interrupt number, the byte-addressed memory and the thread objects by
address. Thread objects are kept apart from the byte memory: the header only
reaches them through `tp->p_ctx` and `otp->p_stklimit`. -/
structure Machine where
  primask : Bool
  psp : Nat
  ipsr : Nat
  prio : Int → Nat
  mem : Nat → Nat
  thd : Nat → thread_t

/-- Result of running port code: either it returns with a new state, or the
system is halted with a reason in the state it was stopped in. -/
inductive Outcome where
  | done (s : Machine)
  | halted (reason : String) (s : Machine)

/-- Sequencing: code after a halt is never executed. -/
def Outcome.andThen (o : Outcome) (k : Machine → Outcome) : Outcome :=
  match o with
  | .done s => k s
  | .halted r s => .halted r s

/-! ### Byte-addressed little-endian memory -/

/-- Store one byte at a 32-bit address. -/
def store8 (m : Nat → Nat) (a v : Nat) : Nat → Nat :=
  fun x => if x = a % 4294967296 then v % 256 else m x

/-- Load one byte from a 32-bit address. -/
def load8 (m : Nat → Nat) (a : Nat) : Nat := m (a % 4294967296)

/-- Store a 32-bit word (a `regarm_t`), low byte first. -/
def store32 (m : Nat → Nat) (a v : Nat) : Nat → Nat :=
  store8 (store8 (store8 (store8 m a v) (a + 1) (v / 256)) (a + 2) (v / 65536))
    (a + 3) (v / 16777216)

/-- Load a 32-bit word, low byte first. -/
def load32 (m : Nat → Nat) (a : Nat) : Nat :=
  load8 m a + 256 * load8 m (a + 1) + 65536 * load8 m (a + 2) + 16777216 * load8 m (a + 3)

/-- Read field `f` of the `struct intctx` at address `p`: `p->f`. -/
def intctx_get (s : Machine) (p : Nat) (f : intctx_field) : Nat :=
  load32 s.mem (p + intctx_offset f)

/-- Write field `f` of the `struct intctx` at address `p`: `p->f = v`. -/
def intctx_set (s : Machine) (p : Nat) (f : intctx_field) (v : Nat) : Machine :=
  { s with mem := store32 s.mem (p + intctx_offset f) v }

/-- Assignment `tp->p_ctx.r13 = v`. -/
def set_r13 (s : Machine) (tp v : Nat) : Machine :=
  { s with thd := Function.update s.thd tp { s.thd tp with p_ctx := { r13 := v } } }

/-! ### Processor intrinsics -/

/-- Modelled from the spec: the CMSIS intrinsic `__disable_irq` is not part of
the header; it is the global interrupt disable, which sets the single
enable/disable bit (PRIMASK) and touches nothing else. -/
def __disable_irq (s : Machine) : Machine := { s with primask := true }

/-- Modelled from the spec: the CMSIS intrinsic `__enable_irq` is not part of
the header; it is the global interrupt enable, which clears the single
enable/disable bit (PRIMASK) and touches nothing else. -/
def __enable_irq (s : Machine) : Machine := { s with primask := false }

/-- Modelled from the spec: the CMSIS intrinsic `__get_PRIMASK` is not part of
the header; it reads the global disable bit as a word, `1` when interrupts are
disabled and `0` when they are enabled. -/
def __get_PRIMASK (s : Machine) : Nat := if s.primask then 1 else 0

/-- Modelled from the spec: the CMSIS intrinsic `__get_PSP` is not part of the
header; it reads the process stack pointer. -/
def __get_PSP (s : Machine) : Nat := s.psp

/-- Modelled from the spec: the CMSIS intrinsic `__get_IPSR` is not part of the
header; it reads the number of the exception being serviced. -/
def __get_IPSR (s : Machine) : Nat := s.ipsr

/-- Modelled from the spec: the CMSIS constant `PendSV_IRQn` is not part of the
header; it is the interrupt number of the dedicated switch exception. -/
def PendSV_IRQn : Int := -2

/-- Modelled from the spec: the CMSIS function `NVIC_SetPriority` is not part
of the header; it configures the priority level of one exception. -/
def NVIC_SetPriority (irqn : Int) (priority : Nat) (s : Machine) : Machine :=
  { s with prio := Function.update s.prio irqn priority }

/-- Modelled from the spec: `chSysHalt` is not part of the header; it is the
unconditional fatal stop, which disables interrupts and stops the processor. -/
def chSysHalt (reason : String) (s : Machine) : Outcome :=
  .halted reason (__disable_irq s)

/-! ## Module macros -/

/-- `SETUP_CONTEXT(workspace, wsize, pf, arg)`, acting on the thread `tp` of
the enclosing scope; `port_thread_start` is the address of the trampoline
`_port_thread_start`. -/
def SETUP_CONTEXT (port_thread_start tp workspace wsize pf arg : Nat) (s : Machine) :
    Machine :=
  let s1 := set_r13 s tp (sub32 (add32 workspace wsize) sizeof_intctx)
  let s2 := intctx_set s1 (s1.thd tp).p_ctx.r13 .r4 pf
  let s3 := intctx_set s2 (s2.thd tp).p_ctx.r13 .r5 arg
  intctx_set s3 (s3.thd tp).p_ctx.r13 .lr port_thread_start

/-- `port_switch(ntp, otp)`. Without the stack check it is `_port_switch`;
with it, the suspended thread's post-switch stack pointer `r13 - 1` is compared
with `otp->p_stklimit` first. `_port_switch` is the assembly routine declared
but not defined by the header, taken as the parameter `port_switch_asm`. -/
def port_switch (cfg : Config) (port_switch_asm : Nat → Nat → Machine → Machine)
    (ntp otp : Nat) (s : Machine) : Outcome :=
  if cfg.CH_DBG_ENABLE_STACK_CHECK then
    let r13 := __get_PSP s
    (if sub32 r13 sizeof_intctx < (s.thd otp).p_stklimit then
        chSysHalt "stack overflow" s
      else Outcome.done s).andThen
      fun s1 => .done (port_switch_asm ntp otp s1)
  else
    .done (port_switch_asm ntp otp s)

/-! ## Module inline functions -/

/-- `port_init`: port-related initialization code. -/
def port_init (s : Machine) : Machine :=
  NVIC_SetPriority PendSV_IRQn CORTEX_PRIORITY_PENDSV s

/-- `port_get_irq_status`: a word encoding the current interrupts status. -/
def port_get_irq_status (s : Machine) : Nat := __get_PRIMASK s

/-- `port_irq_enabled`: `(sts & 1) == 0`. -/
def port_irq_enabled (sts : Nat) : Bool := (sts &&& 1) == 0

/-- `port_is_isr_context`: `(__get_IPSR() & 0x1FF) != 0`. -/
def port_is_isr_context (s : Machine) : Bool := (__get_IPSR s &&& 0x1FF) != 0

/-- `port_lock`: kernel-lock action. -/
def port_lock (s : Machine) : Machine := __disable_irq s

/-- `port_unlock`: kernel-unlock action. -/
def port_unlock (s : Machine) : Machine := __enable_irq s

/-- `port_lock_from_isr`: kernel-lock action from an interrupt handler. -/
def port_lock_from_isr (s : Machine) : Machine := port_lock s

/-- `port_unlock_from_isr`: kernel-unlock action from an interrupt handler. -/
def port_unlock_from_isr (s : Machine) : Machine := port_unlock s

/-- `port_disable`: disables all the interrupt sources. -/
def port_disable (s : Machine) : Machine := __disable_irq s

/-- `port_suspend`: disables the interrupt sources below kernel-level
priority. -/
def port_suspend (s : Machine) : Machine := __disable_irq s

/-- `port_enable`: enables all the interrupt sources. -/
def port_enable (s : Machine) : Machine := __enable_irq s

/-! ## Vocabulary of the properties -/

/-- Cortex-M priority convention: a numerically lower level is more urgent, so
level `a` is less urgent than level `b` when `b < a`. -/
abbrev less_urgent (a b : Nat) : Prop := b < a

/-- A priority level usable by an ordinary kernel ISR: no more urgent than
`CORTEX_MAX_KERNEL_PRIORITY`, the maximum usable priority for normal ISRs. -/
abbrev usable_isr_priority (cfg : Config) (p : Nat) : Prop :=
  CORTEX_MAX_KERNEL_PRIORITY cfg ≤ p

/-- Interrupts are globally enabled in state `s`. -/
def irq_enabled (s : Machine) : Bool := !s.primask

/-- Free bytes between the end of the `thread_t` at the base of the working
area and the frame at `r13`: `(r13 - workspace) - sizeof(thread_t)`, as a
pointer difference. -/
def free_below_frame (cfg : Config) (workspace r13 : Nat) : Nat :=
  sub32 (sub32 r13 workspace) cfg.sizeof_thread_t

/-- A machine in thread mode with interrupts enabled, the process stack
pointer at `psp`, and every thread's stack limit at `stklimit`. -/
def Machine.sample (psp stklimit : Nat) : Machine :=
  { primask := false
    psp := psp
    ipsr := 0
    prio := fun _ => 0
    mem := fun _ => 0
    thd := fun _ => { p_ctx := { r13 := 0 }, p_stklimit := stklimit } }

/-- The default configuration with the alternate (PendSV) preemption method
selected. -/
def Config.alternate (sizeof_thread_t : Nat) : Config :=
  { Config.default sizeof_thread_t false with CORTEX_ALTERNATE_SWITCH := true }

/-- The saved stack pointer of the thread at address `tp`: `tp->p_ctx.r13`. -/
def thread_r13 (s : Machine) (tp : Nat) : Nat := (s.thd tp).p_ctx.r13

/-- A quiescent machine: interrupts enabled, all memory and registers zero. -/
def Machine.zero : Machine :=
  { primask := false
    psp := 0
    ipsr := 0
    prio := fun _ => 0
    mem := fun _ => 0
    thd := fun _ => { p_ctx := { r13 := 0 }, p_stklimit := 0 } }

/-! ## Arithmetic lemmas -/

theorem or_seven (x : Nat) : x ||| 7 = 8 * (x / 8) + 7 := by
  have h2 : ∀ a b : Nat, (a ||| b) / 2 = a / 2 ||| b / 2 := fun a b => Nat.or_div_two
  have hd : (x ||| 7) / 8 = x / 8 := by
    have e : ∀ y : Nat, y / 8 = y / 2 / 2 / 2 := by intro y; omega
    rw [e (x ||| 7), h2, h2, h2, e x]
    simp
  have hm : (x ||| 7) % 8 = 7 := by
    have hb : ∀ i, i < 3 → (x ||| 7).testBit i = true := by
      intro i hi
      rw [Nat.testBit_or]
      interval_cases i <;> simp [Nat.testBit]
    have h0 := hb 0 (by omega)
    have h1 := hb 1 (by omega)
    have h2 := hb 2 (by omega)
    simp only [Nat.testBit, Nat.shiftRight_eq_div_pow, Nat.one_and_eq_mod_two,
      bne_iff_ne, ne_eq] at h0 h1 h2
    omega
  omega

theorem sizeof_intctx_eq : sizeof_intctx = 36 := by decide

theorem sizeof_extctx_eq : sizeof_extctx = 32 := by decide

theorem STACK_ALIGN_eq (n : Nat) (h1 : 1 ≤ n) (h2 : n ≤ 4294967288) :
    STACK_ALIGN n = 8 * ((n - 1) / 8) + 8 := by
  unfold STACK_ALIGN add32 or32 sub32 sizeof_stkalign_t
  have e1 : (n % 4294967296 + (4294967296 - 1 % 4294967296)) % 4294967296 = n - 1 := by omega
  have e2 : (8 % 4294967296 + (4294967296 - 1 % 4294967296)) % 4294967296 = 7 := by norm_num
  rw [e1, e2, or_seven]
  omega

theorem THD_WA_SIZE_eq (cfg : Config) (n : Nat)
    (h : cfg.sizeof_thread_t + sizeof_intctx + sizeof_extctx + n
      + cfg.CH_PORT_INT_REQUIRED_STACK ≤ 4294967288) :
    THD_WA_SIZE cfg n = 8 * ((cfg.sizeof_thread_t + sizeof_intctx + sizeof_extctx + n
      + cfg.CH_PORT_INT_REQUIRED_STACK - 1) / 8) + 8 := by
  rw [sizeof_intctx_eq, sizeof_extctx_eq] at h ⊢
  unfold THD_WA_SIZE
  rw [sizeof_intctx_eq, sizeof_extctx_eq]
  have e : add32 (add32 (add32 (add32 cfg.sizeof_thread_t 36) 32) n)
      cfg.CH_PORT_INT_REQUIRED_STACK
      = cfg.sizeof_thread_t + 36 + 32 + n + cfg.CH_PORT_INT_REQUIRED_STACK := by
    unfold add32; omega
  rw [e, STACK_ALIGN_eq _ (by omega) h]

/-! ## Memory and frame lemmas -/

theorem load8_store8 (m : Nat → Nat) (a b v : Nat) :
    load8 (store8 m b v) a
      = if a % 4294967296 = b % 4294967296 then v % 256 else load8 m a := by
  simp [load8, store8]

theorem load32_store32_same (m : Nat → Nat) (a v : Nat) :
    load32 (store32 m a v) a = v % 4294967296 := by
  unfold load32 store32
  simp only [load8_store8]
  split_ifs <;> omega

theorem load32_store32_disjoint (m : Nat → Nat) (a b v : Nat)
    (h : ∀ i j, i < 4 → j < 4 → (a + i) % 4294967296 ≠ (b + j) % 4294967296) :
    load32 (store32 m b v) a = load32 m a := by
  have h00 := h 0 0 (by omega) (by omega)
  have h01 := h 0 1 (by omega) (by omega)
  have h02 := h 0 2 (by omega) (by omega)
  have h03 := h 0 3 (by omega) (by omega)
  have h10 := h 1 0 (by omega) (by omega)
  have h11 := h 1 1 (by omega) (by omega)
  have h12 := h 1 2 (by omega) (by omega)
  have h13 := h 1 3 (by omega) (by omega)
  have h20 := h 2 0 (by omega) (by omega)
  have h21 := h 2 1 (by omega) (by omega)
  have h22 := h 2 2 (by omega) (by omega)
  have h23 := h 2 3 (by omega) (by omega)
  have h30 := h 3 0 (by omega) (by omega)
  have h31 := h 3 1 (by omega) (by omega)
  have h32 := h 3 2 (by omega) (by omega)
  have h33 := h 3 3 (by omega) (by omega)
  simp only [Nat.add_zero] at h00 h01 h02 h03 h10 h20 h30
  unfold load32 store32
  simp only [load8_store8]
  simp [h00, h01, h02, h03, h10, h11, h12, h13, h20, h21, h22, h23, h30, h31, h32, h33]

theorem SETUP_CONTEXT_r13 (pts tp workspace wsize pf arg : Nat) (s : Machine) :
    thread_r13 (SETUP_CONTEXT pts tp workspace wsize pf arg s) tp
      = sub32 (add32 workspace wsize) sizeof_intctx := by
  simp [thread_r13, SETUP_CONTEXT, set_r13, intctx_set]

theorem SETUP_CONTEXT_mem (pts tp workspace wsize pf arg : Nat) (s : Machine) :
    (SETUP_CONTEXT pts tp workspace wsize pf arg s).mem
      = store32 (store32 (store32 s.mem
          (sub32 (add32 workspace wsize) sizeof_intctx + 16) pf)
          (sub32 (add32 workspace wsize) sizeof_intctx + 20) arg)
          (sub32 (add32 workspace wsize) sizeof_intctx + 32) pts := by
  have e4 : intctx_offset .r4 = 16 := by decide
  have e5 : intctx_offset .r5 = 20 := by decide
  have el : intctx_offset .lr = 32 := by decide
  simp [SETUP_CONTEXT, set_r13, intctx_set, e4, e5, el]

theorem SETUP_CONTEXT_fields (pts tp workspace wsize pf arg : Nat) (s : Machine) :
    intctx_get (SETUP_CONTEXT pts tp workspace wsize pf arg s)
        (thread_r13 (SETUP_CONTEXT pts tp workspace wsize pf arg s) tp) .r4
      = pf % 4294967296
    ∧ intctx_get (SETUP_CONTEXT pts tp workspace wsize pf arg s)
        (thread_r13 (SETUP_CONTEXT pts tp workspace wsize pf arg s) tp) .r5
      = arg % 4294967296
    ∧ intctx_get (SETUP_CONTEXT pts tp workspace wsize pf arg s)
        (thread_r13 (SETUP_CONTEXT pts tp workspace wsize pf arg s) tp) .lr
      = pts % 4294967296 := by
  have e4 : intctx_offset .r4 = 16 := by decide
  have e5 : intctx_offset .r5 = 20 := by decide
  have el : intctx_offset .lr = 32 := by decide
  rw [SETUP_CONTEXT_r13]
  unfold intctx_get
  rw [SETUP_CONTEXT_mem, e4, e5, el]
  generalize sub32 (add32 workspace wsize) sizeof_intctx = r
  refine ⟨?_, ?_, ?_⟩
  · rw [load32_store32_disjoint _ _ _ _ (by intro i j hi hj; omega),
      load32_store32_disjoint _ _ _ _ (by intro i j hi hj; omega),
      load32_store32_same]
  · rw [load32_store32_disjoint _ _ _ _ (by intro i j hi hj; omega),
      load32_store32_same]
  · rw [load32_store32_same]

/-! ## Properties of the sizing macros -/

/-- C9: for every `n` with `1 ≤ n ≤ 2^32 - 8`, `STACK_ALIGN n` is a multiple of
8, is at least `n`, is below every other multiple of 8 that is at least `n`,
equals `n` when `n` is already a multiple of 8, and aligning twice is the same
as aligning once. -/
theorem STACK_ALIGN_least_multiple (n : Nat) (h1 : 1 ≤ n) (h2 : n ≤ 4294967296 - 8) :
    STACK_ALIGN n % sizeof_stkalign_t = 0
    ∧ n ≤ STACK_ALIGN n
    ∧ (∀ m, m % sizeof_stkalign_t = 0 → n ≤ m → STACK_ALIGN n ≤ m)
    ∧ (n % sizeof_stkalign_t = 0 → STACK_ALIGN n = n)
    ∧ STACK_ALIGN (STACK_ALIGN n) = STACK_ALIGN n := by
  have e := STACK_ALIGN_eq n h1 (by omega)
  have e2 := STACK_ALIGN_eq (STACK_ALIGN n) (by omega) (by omega)
  unfold sizeof_stkalign_t
  refine ⟨by omega, by omega, ?_, by omega, by omega⟩
  intro m hm hn
  omega

/-- Instance of C9 at `n = 13`, whose aligned size is 16. -/
theorem STACK_ALIGN_least_multiple_witness :
    STACK_ALIGN 13 = 16
    ∧ (STACK_ALIGN 13 % sizeof_stkalign_t = 0
      ∧ 13 ≤ STACK_ALIGN 13
      ∧ (∀ m, m % sizeof_stkalign_t = 0 → 13 ≤ m → STACK_ALIGN 13 ≤ m)
      ∧ (13 % sizeof_stkalign_t = 0 → STACK_ALIGN 13 = 13)
      ∧ STACK_ALIGN (STACK_ALIGN 13) = STACK_ALIGN 13) :=
  ⟨by decide, STACK_ALIGN_least_multiple 13 (by decide) (by decide)⟩

/-- C1 as stated fails: with `sizeof(thread_t) = 72`, the default interrupt
reserve 32 and `n = 4294967120`, the sum is `2^32 - 4`, which does not overflow
32 bits, yet `THD_WA_SIZE n` wraps to 0 and is smaller than the sum. -/
theorem THD_WA_SIZE_wraps_counterexample :
    72 + sizeof_intctx + sizeof_extctx + 4294967120 + 32 < 4294967296
    ∧ THD_WA_SIZE (Config.default 72 false) 4294967120 = 0
    ∧ ¬ (72 + sizeof_intctx + sizeof_extctx + 4294967120 + 32
          ≤ THD_WA_SIZE (Config.default 72 false) 4294967120) := by
  decide

/-- C1 (amended): whenever the sum `sizeof(thread_t) + sizeof(struct intctx) +
sizeof(struct extctx) + n + CH_PORT_INT_REQUIRED_STACK` is at most `2^32 - 8`,
`THD_WA_SIZE n` is a multiple of 8, is at least that sum, and exceeds it by
less than 8. -/
theorem THD_WA_SIZE_sufficient (cfg : Config) (n : Nat)
    (h : cfg.sizeof_thread_t + sizeof_intctx + sizeof_extctx + n
      + cfg.CH_PORT_INT_REQUIRED_STACK ≤ 4294967296 - 8) :
    THD_WA_SIZE cfg n % 8 = 0
    ∧ cfg.sizeof_thread_t + sizeof_intctx + sizeof_extctx + n
        + cfg.CH_PORT_INT_REQUIRED_STACK ≤ THD_WA_SIZE cfg n
    ∧ THD_WA_SIZE cfg n < cfg.sizeof_thread_t + sizeof_intctx + sizeof_extctx + n
        + cfg.CH_PORT_INT_REQUIRED_STACK + 8 := by
  have e := THD_WA_SIZE_eq cfg n (by omega)
  have hi := sizeof_intctx_eq
  omega

/-- Instance of the amended C1: a 64-byte stack with a 72-byte `thread_t`
gives a 240-byte working area. -/
theorem THD_WA_SIZE_sufficient_witness :
    THD_WA_SIZE (Config.default 72 false) 64 = 240
    ∧ (THD_WA_SIZE (Config.default 72 false) 64 % 8 = 0
      ∧ (Config.default 72 false).sizeof_thread_t + sizeof_intctx + sizeof_extctx + 64
          + (Config.default 72 false).CH_PORT_INT_REQUIRED_STACK
          ≤ THD_WA_SIZE (Config.default 72 false) 64
      ∧ THD_WA_SIZE (Config.default 72 false) 64
          < (Config.default 72 false).sizeof_thread_t + sizeof_intctx + sizeof_extctx + 64
            + (Config.default 72 false).CH_PORT_INT_REQUIRED_STACK + 8) :=
  ⟨by decide, THD_WA_SIZE_sufficient (Config.default 72 false) 64 (by decide)⟩

/-! ## Properties of the initial frame -/

/-- C2: for every working area with `wsize ≥ sizeof(struct intctx)`, entry
function `pf`, argument `arg` and trampoline address (all 32-bit pointers),
after `SETUP_CONTEXT` the saved stack pointer `tp->p_ctx.r13` is
`workspace + wsize - sizeof(struct intctx)` as a 32-bit address, exactly that
number when the area lies inside the address space (so the frame is the
topmost bytes of the area), and the frame there has `r4 = pf`, `r5 = arg` and
`lr = _port_thread_start`. -/
theorem SETUP_CONTEXT_initial_frame (pts tp workspace wsize pf arg : Nat) (s : Machine)
    (hw : sizeof_intctx ≤ wsize) (hpf : pf < 4294967296) (harg : arg < 4294967296)
    (hpts : pts < 4294967296) :
    thread_r13 (SETUP_CONTEXT pts tp workspace wsize pf arg s) tp
        = (workspace + wsize - sizeof_intctx) % 4294967296
    ∧ (workspace + wsize ≤ 4294967296 →
        thread_r13 (SETUP_CONTEXT pts tp workspace wsize pf arg s) tp
            = workspace + wsize - sizeof_intctx
        ∧ thread_r13 (SETUP_CONTEXT pts tp workspace wsize pf arg s) tp + sizeof_intctx
            = workspace + wsize)
    ∧ intctx_get (SETUP_CONTEXT pts tp workspace wsize pf arg s)
        (thread_r13 (SETUP_CONTEXT pts tp workspace wsize pf arg s) tp) .r4 = pf
    ∧ intctx_get (SETUP_CONTEXT pts tp workspace wsize pf arg s)
        (thread_r13 (SETUP_CONTEXT pts tp workspace wsize pf arg s) tp) .r5 = arg
    ∧ intctx_get (SETUP_CONTEXT pts tp workspace wsize pf arg s)
        (thread_r13 (SETUP_CONTEXT pts tp workspace wsize pf arg s) tp) .lr = pts := by
  obtain ⟨f4, f5, fl⟩ := SETUP_CONTEXT_fields pts tp workspace wsize pf arg s
  rw [f4, f5, fl, SETUP_CONTEXT_r13]
  rw [sizeof_intctx_eq] at hw ⊢
  unfold sub32 add32
  refine ⟨by omega, ?_, by omega, by omega, by omega⟩
  intro hfit
  omega

/-- Instance of C2: the scenario of a thread created in a 240-byte working
area at `0x20000000` with argument 42; the frame sits at `0x200000CC`. -/
theorem SETUP_CONTEXT_initial_frame_witness :
    thread_r13 (SETUP_CONTEXT 134217985 536870912 536870912 240 134218241 42 Machine.zero)
        536870912 = 536871116
    ∧ (thread_r13 (SETUP_CONTEXT 134217985 536870912 536870912 240 134218241 42 Machine.zero)
          536870912 = (536870912 + 240 - sizeof_intctx) % 4294967296
      ∧ (536870912 + 240 ≤ 4294967296 →
          thread_r13 (SETUP_CONTEXT 134217985 536870912 536870912 240 134218241 42
              Machine.zero) 536870912 = 536870912 + 240 - sizeof_intctx
          ∧ thread_r13 (SETUP_CONTEXT 134217985 536870912 536870912 240 134218241 42
              Machine.zero) 536870912 + sizeof_intctx = 536870912 + 240)
      ∧ intctx_get (SETUP_CONTEXT 134217985 536870912 536870912 240 134218241 42 Machine.zero)
          (thread_r13 (SETUP_CONTEXT 134217985 536870912 536870912 240 134218241 42
            Machine.zero) 536870912) .r4 = 134218241
      ∧ intctx_get (SETUP_CONTEXT 134217985 536870912 536870912 240 134218241 42 Machine.zero)
          (thread_r13 (SETUP_CONTEXT 134217985 536870912 536870912 240 134218241 42
            Machine.zero) 536870912) .r5 = 42
      ∧ intctx_get (SETUP_CONTEXT 134217985 536870912 536870912 240 134218241 42 Machine.zero)
          (thread_r13 (SETUP_CONTEXT 134217985 536870912 536870912 240 134218241 42
            Machine.zero) 536870912) .lr = 134217985) :=
  ⟨by decide,
    SETUP_CONTEXT_initial_frame 134217985 536870912 536870912 240 134218241 42 Machine.zero
      (by decide) (by decide) (by decide) (by decide)⟩

/-- C10: for every 8-byte-aligned `workspace` and every `wsize` that is a
multiple of 8 and at least `sizeof(struct intctx)`, the saved stack pointer
written by `SETUP_CONTEXT` is congruent to 4 modulo 8, and adding
`sizeof(struct intctx)` to it gives the 8-byte-aligned end of the working area
`workspace + wsize` (as a 32-bit address, and exactly when the area lies inside
the address space). -/
theorem SETUP_CONTEXT_alignment (pts tp workspace wsize pf arg : Nat) (s : Machine)
    (ha : workspace % sizeof_stkalign_t = 0) (hm : wsize % sizeof_stkalign_t = 0)
    (hw : sizeof_intctx ≤ wsize) :
    thread_r13 (SETUP_CONTEXT pts tp workspace wsize pf arg s) tp % 8 = 4
    ∧ thread_r13 (SETUP_CONTEXT pts tp workspace wsize pf arg s) tp % 4 = 0
    ∧ add32 (thread_r13 (SETUP_CONTEXT pts tp workspace wsize pf arg s) tp) sizeof_intctx
        = add32 workspace wsize
    ∧ add32 (thread_r13 (SETUP_CONTEXT pts tp workspace wsize pf arg s) tp) sizeof_intctx
        % 8 = 0
    ∧ (workspace + wsize ≤ 4294967296 →
        thread_r13 (SETUP_CONTEXT pts tp workspace wsize pf arg s) tp + sizeof_intctx
          = workspace + wsize
        ∧ (thread_r13 (SETUP_CONTEXT pts tp workspace wsize pf arg s) tp + sizeof_intctx)
          % 8 = 0) := by
  rw [SETUP_CONTEXT_r13]
  rw [sizeof_intctx_eq] at hw ⊢
  unfold sizeof_stkalign_t at ha hm
  unfold sub32 add32
  refine ⟨by omega, by omega, by omega, by omega, ?_⟩
  intro hfit
  omega

/-- Instance of C10: a 240-byte working area at `0x20000000`. -/
theorem SETUP_CONTEXT_alignment_witness :
    thread_r13 (SETUP_CONTEXT 134217985 536870912 536870912 240 134218241 42 Machine.zero)
        536870912 % 8 = 4
    ∧ thread_r13 (SETUP_CONTEXT 134217985 536870912 536870912 240 134218241 42 Machine.zero)
        536870912 % 4 = 0
    ∧ add32 (thread_r13 (SETUP_CONTEXT 134217985 536870912 536870912 240 134218241 42
        Machine.zero) 536870912) sizeof_intctx = add32 536870912 240
    ∧ add32 (thread_r13 (SETUP_CONTEXT 134217985 536870912 536870912 240 134218241 42
        Machine.zero) 536870912) sizeof_intctx % 8 = 0
    ∧ (536870912 + 240 ≤ 4294967296 →
        thread_r13 (SETUP_CONTEXT 134217985 536870912 536870912 240 134218241 42
            Machine.zero) 536870912 + sizeof_intctx = 536870912 + 240
        ∧ (thread_r13 (SETUP_CONTEXT 134217985 536870912 536870912 240 134218241 42
            Machine.zero) 536870912 + sizeof_intctx) % 8 = 0) :=
  SETUP_CONTEXT_alignment 134217985 536870912 536870912 240 134218241 42 Machine.zero
    (by decide) (by decide) (by decide)

/-- C3 as stated fails: with `sizeof(thread_t) = 76`, the default interrupt
reserve 32 and a requested stack of `n = 4294967228` bytes, the 32-bit sum
wraps, `THD_WA_SIZE n` is 112, the working area at `0x20000000` holds exactly
the `thread_t` and the initial frame, and no byte is free between them, far
fewer than `n + sizeof(struct extctx) + CH_PORT_INT_REQUIRED_STACK`. -/
theorem initial_frame_reserve_counterexample :
    THD_WA_SIZE (Config.default 76 false) 4294967228 = 112
    ∧ free_below_frame (Config.default 76 false) 536870912
        (thread_r13 (SETUP_CONTEXT 134217985 536870912 536870912
          (THD_WA_SIZE (Config.default 76 false) 4294967228) 134218241 42 Machine.zero)
          536870912) = 0
    ∧ ¬ (4294967228 + sizeof_extctx + (Config.default 76 false).CH_PORT_INT_REQUIRED_STACK
          ≤ free_below_frame (Config.default 76 false) 536870912
              (thread_r13 (SETUP_CONTEXT 134217985 536870912 536870912
                (THD_WA_SIZE (Config.default 76 false) 4294967228) 134218241 42 Machine.zero)
                536870912)) := by
  decide

/-- C3 (amended): whenever the sum `sizeof(thread_t) + sizeof(struct intctx) +
sizeof(struct extctx) + n + CH_PORT_INT_REQUIRED_STACK` is at most `2^32 - 8`,
a working area of `THD_WA_SIZE n` bytes with the `thread_t` at its base and the
initial frame reserved by `SETUP_CONTEXT` at its top has at least
`n + sizeof(struct extctx) + CH_PORT_INT_REQUIRED_STACK` free bytes between
them; when the area lies inside the address space these bytes are the
addresses from `workspace + sizeof(thread_t)` up to the frame. -/
theorem initial_frame_leaves_reserve (cfg : Config) (pts tp workspace n pf arg : Nat)
    (s : Machine)
    (h : cfg.sizeof_thread_t + sizeof_intctx + sizeof_extctx + n
      + cfg.CH_PORT_INT_REQUIRED_STACK ≤ 4294967296 - 8) :
    n + sizeof_extctx + cfg.CH_PORT_INT_REQUIRED_STACK
      ≤ free_below_frame cfg workspace
          (thread_r13 (SETUP_CONTEXT pts tp workspace (THD_WA_SIZE cfg n) pf arg s) tp)
    ∧ (workspace + THD_WA_SIZE cfg n ≤ 4294967296 →
        workspace + cfg.sizeof_thread_t + (n + sizeof_extctx + cfg.CH_PORT_INT_REQUIRED_STACK)
          ≤ thread_r13 (SETUP_CONTEXT pts tp workspace (THD_WA_SIZE cfg n) pf arg s) tp) := by
  have e := THD_WA_SIZE_eq cfg n (by omega)
  rw [SETUP_CONTEXT_r13]
  generalize THD_WA_SIZE cfg n = wsize at e ⊢
  rw [sizeof_intctx_eq, sizeof_extctx_eq] at *
  unfold free_below_frame sub32 add32
  refine ⟨by omega, ?_⟩
  intro hfit
  omega

/-- Instance of the amended C3: a 64-byte stack with a 72-byte `thread_t` in a
working area at `0x20000000`; 132 bytes are free below the frame. -/
theorem initial_frame_leaves_reserve_witness :
    free_below_frame (Config.default 72 false) 536870912
        (thread_r13 (SETUP_CONTEXT 134217985 536870912 536870912
          (THD_WA_SIZE (Config.default 72 false) 64) 134218241 42 Machine.zero)
          536870912) = 132
    ∧ (64 + sizeof_extctx + (Config.default 72 false).CH_PORT_INT_REQUIRED_STACK
        ≤ free_below_frame (Config.default 72 false) 536870912
            (thread_r13 (SETUP_CONTEXT 134217985 536870912 536870912
              (THD_WA_SIZE (Config.default 72 false) 64) 134218241 42 Machine.zero)
              536870912)
      ∧ (536870912 + THD_WA_SIZE (Config.default 72 false) 64 ≤ 4294967296 →
          536870912 + (Config.default 72 false).sizeof_thread_t
              + (64 + sizeof_extctx + (Config.default 72 false).CH_PORT_INT_REQUIRED_STACK)
            ≤ thread_r13 (SETUP_CONTEXT 134217985 536870912 536870912
                (THD_WA_SIZE (Config.default 72 false) 64) 134218241 42 Machine.zero)
                536870912)) :=
  ⟨by decide,
    initial_frame_leaves_reserve (Config.default 72 false) 134217985 536870912 536870912 64
      134218241 42 Machine.zero (by decide)⟩

/-! ## Properties of the guarded context switch -/

/-- C4: with the stack check enabled, for every 32-bit process stack pointer
`PSP ≥ sizeof(struct intctx)` and every suspended thread `otp`, `port_switch`
halts if and only if `PSP - sizeof(struct intctx)` is strictly below
`otp->p_stklimit`; when it halts the reason is "stack overflow" and the halted
state is the entry state with interrupts disabled, so `_port_switch` has not
run and no thread context, memory or stack pointer has changed; otherwise
(equality included) it does not halt and returns the state produced by
`_port_switch(ntp, otp)`. -/
theorem port_switch_stack_check (cfg : Config) (psw : Nat → Nat → Machine → Machine)
    (ntp otp : Nat) (s : Machine) (hc : cfg.CH_DBG_ENABLE_STACK_CHECK = true)
    (h1 : sizeof_intctx ≤ s.psp) (h2 : s.psp < 4294967296) :
    ((∃ r s1, port_switch cfg psw ntp otp s = .halted r s1)
        ↔ s.psp - sizeof_intctx < (s.thd otp).p_stklimit)
    ∧ (s.psp - sizeof_intctx < (s.thd otp).p_stklimit →
        port_switch cfg psw ntp otp s = .halted "stack overflow" { s with primask := true })
    ∧ ((s.thd otp).p_stklimit ≤ s.psp - sizeof_intctx →
        port_switch cfg psw ntp otp s = .done (psw ntp otp s)) := by
  have e : sub32 (__get_PSP s) sizeof_intctx = s.psp - sizeof_intctx := by
    rw [sizeof_intctx_eq] at h1 ⊢
    unfold sub32 __get_PSP
    omega
  have hlt : s.psp - sizeof_intctx < (s.thd otp).p_stklimit →
      port_switch cfg psw ntp otp s = .halted "stack overflow" { s with primask := true } := by
    intro h
    simp only [port_switch, hc, if_true, e, h, chSysHalt, Outcome.andThen, __disable_irq]
  have hge : (s.thd otp).p_stklimit ≤ s.psp - sizeof_intctx →
      port_switch cfg psw ntp otp s = .done (psw ntp otp s) := by
    intro h
    have h' : ¬ (s.psp - sizeof_intctx < (s.thd otp).p_stklimit) := by omega
    simp only [port_switch, hc, if_true, e, h', if_false, Outcome.andThen]
  refine ⟨⟨?_, fun h => ⟨_, _, hlt h⟩⟩, hlt, hge⟩
  rintro ⟨r, s1, hs⟩
  by_contra hn
  rw [hge (by omega)] at hs
  cases hs

/-- Instance of C4: with the stack pointer at `0x200000CC`, a limit of
`0x200000B0` halts the switch and a limit of `0x200000A8` (equal to the
post-switch pointer) lets it proceed. -/
theorem port_switch_stack_check_witness :
    port_switch (Config.default 72 true) (fun _ _ m => m) 1 2
        (Machine.sample 536871116 536871088)
      = .halted "stack overflow" { Machine.sample 536871116 536871088 with primask := true }
    ∧ port_switch (Config.default 72 true) (fun _ _ m => m) 1 2
        (Machine.sample 536871116 536871080)
      = .done (Machine.sample 536871116 536871080) :=
  ⟨(port_switch_stack_check (Config.default 72 true) (fun _ _ m => m) 1 2
      (Machine.sample 536871116 536871088) rfl (by decide) (by decide)).2.1 (by decide),
   (port_switch_stack_check (Config.default 72 true) (fun _ _ m => m) 1 2
      (Machine.sample 536871116 536871080) rfl (by decide) (by decide)).2.2 (by decide)⟩

/-! ## Properties of the critical-section primitives -/

/-- C5 as stated fails: starting with interrupts disabled, `port_lock` followed
by `port_unlock` (and likewise the `from_isr` pair) ends with interrupts
enabled, which is not the state before the lock. -/
theorem lock_unlock_counterexample :
    (Machine.mk true 0 0 (fun _ => 0) (fun _ => 0)
        (fun _ => { p_ctx := { r13 := 0 }, p_stklimit := 0 })).primask = true
    ∧ (port_unlock (port_lock (Machine.mk true 0 0 (fun _ => 0) (fun _ => 0)
        (fun _ => { p_ctx := { r13 := 0 }, p_stklimit := 0 })))).primask = false
    ∧ (port_unlock_from_isr (port_lock_from_isr (Machine.mk true 0 0 (fun _ => 0) (fun _ => 0)
        (fun _ => { p_ctx := { r13 := 0 }, p_stklimit := 0 })))).primask = false
    ∧ irq_enabled (port_unlock (port_lock (Machine.mk true 0 0 (fun _ => 0) (fun _ => 0)
        (fun _ => { p_ctx := { r13 := 0 }, p_stklimit := 0 }))))
      ≠ irq_enabled (Machine.mk true 0 0 (fun _ => 0) (fun _ => 0)
        (fun _ => { p_ctx := { r13 := 0 }, p_stklimit := 0 })) := by
  decide

/-- C5 (amended): from every initial state, `port_lock` followed by
`port_unlock` (and likewise `port_lock_from_isr` followed by
`port_unlock_from_isr`) leaves interrupts globally enabled and changes nothing
else, so the state before the lock is restored exactly when interrupts were
enabled before the lock. -/
theorem lock_unlock_enables (s : Machine) :
    port_unlock (port_lock s) = { s with primask := false }
    ∧ port_unlock_from_isr (port_lock_from_isr s) = { s with primask := false }
    ∧ irq_enabled (port_unlock (port_lock s)) = true
    ∧ irq_enabled (port_unlock_from_isr (port_lock_from_isr s)) = true
    ∧ (irq_enabled (port_unlock (port_lock s)) = irq_enabled s ↔ irq_enabled s = true)
    ∧ (irq_enabled (port_unlock_from_isr (port_lock_from_isr s)) = irq_enabled s
        ↔ irq_enabled s = true)
    ∧ (port_unlock (port_lock s) = s ↔ irq_enabled s = true) := by
  refine ⟨rfl, rfl, rfl, rfl, ?_, ?_, ?_⟩
  · simp [irq_enabled, port_unlock, port_lock, __enable_irq, __disable_irq]
  · simp [irq_enabled, port_unlock_from_isr, port_lock_from_isr, port_unlock, port_lock,
      __enable_irq, __disable_irq]
  · cases s with
    | mk pm psp ipsr prio mem thd =>
      simp [irq_enabled, port_unlock, port_lock, __enable_irq, __disable_irq]

/-- C6: on every machine state `port_lock_from_isr` gives the same state as
`port_lock`, which is the entry state with PRIMASK set; `port_unlock_from_isr`
gives the same state as `port_unlock`, which is the entry state with PRIMASK
cleared; `port_disable` and `port_suspend` coincide with `port_lock`, and
`port_enable` with `port_unlock`. -/
theorem lock_variants_coincide (s : Machine) :
    port_lock_from_isr s = port_lock s
    ∧ port_lock s = { s with primask := true }
    ∧ port_unlock_from_isr s = port_unlock s
    ∧ port_unlock s = { s with primask := false }
    ∧ port_disable s = port_lock s
    ∧ port_suspend s = port_lock s
    ∧ port_enable s = port_unlock s :=
  ⟨rfl, rfl, rfl, rfl, rfl, rfl, rfl⟩

/-- C7: for every status word `sts`, `port_irq_enabled sts` is true exactly
when bit 0 of `sts` is clear and depends on no other bit; on every machine
state the status read right after `port_lock` is reported disabled and the one
read right after `port_unlock` is reported enabled. -/
theorem port_irq_enabled_bit0 (sts : Nat) (s : Machine) :
    (port_irq_enabled sts = true ↔ sts.testBit 0 = false)
    ∧ port_irq_enabled sts = port_irq_enabled (sts % 2)
    ∧ port_irq_enabled (port_get_irq_status (port_lock s)) = false
    ∧ port_irq_enabled (port_get_irq_status (port_unlock s)) = true := by
  have e : ∀ x : Nat, (port_irq_enabled x = true ↔ x % 2 = 0) := by
    intro x
    simp [port_irq_enabled, Nat.and_one_is_mod]
  refine ⟨?_, ?_, ?_, ?_⟩
  · rw [e, Nat.testBit_zero]
    have := Nat.mod_two_eq_zero_or_one sts
    rcases this with h | h <;> simp [h]
  · rw [Bool.eq_iff_iff, e, e, Nat.mod_mod]
  · simp [port_irq_enabled, port_get_irq_status, port_lock, __disable_irq, __get_PRIMASK]
  · simp [port_irq_enabled, port_get_irq_status, port_unlock, __enable_irq, __get_PRIMASK]

/-! ## Properties of the preemption priority -/

/-- C8 as stated fails: with the alternate switch selected, `port_init` gives
PendSV level 0, level 1 is usable by ordinary kernel ISRs, and PendSV is not
less urgent than level 1 (it is more urgent). -/
theorem pendsv_priority_counterexample :
    (port_init Machine.zero).prio PendSV_IRQn = 0
    ∧ CORTEX_MAX_KERNEL_PRIORITY (Config.alternate 72) = 1
    ∧ usable_isr_priority (Config.alternate 72) 1
    ∧ ¬ less_urgent ((port_init Machine.zero).prio PendSV_IRQn) 1 := by
  decide

/-- C8 (amended): with the alternate switch selected, the level `port_init`
assigns to PendSV is `CORTEX_PRIORITY_PENDSV = 0`, and every priority level
usable by ordinary kernel ISRs (no more urgent than
`CORTEX_MAX_KERNEL_PRIORITY = 1`) is less urgent than it: PendSV is the more
urgent one. -/
theorem pendsv_more_urgent (cfg : Config) (s : Machine) (p : Nat)
    (hsw : cfg.CORTEX_ALTERNATE_SWITCH = true) (hp : usable_isr_priority cfg p) :
    (port_init s).prio PendSV_IRQn = CORTEX_PRIORITY_PENDSV
    ∧ less_urgent p ((port_init s).prio PendSV_IRQn) := by
  have e : (port_init s).prio PendSV_IRQn = 0 := by
    simp [port_init, NVIC_SetPriority, CORTEX_PRIORITY_PENDSV]
  have hm : CORTEX_MAX_KERNEL_PRIORITY cfg = 1 := by
    simp [CORTEX_MAX_KERNEL_PRIORITY, hsw]
  unfold usable_isr_priority at hp
  unfold less_urgent
  rw [e]
  refine ⟨rfl, ?_⟩
  omega

/-- Instance of the amended C8 at ISR level 1. -/
theorem pendsv_more_urgent_witness :
    (port_init Machine.zero).prio PendSV_IRQn = CORTEX_PRIORITY_PENDSV
    ∧ less_urgent 1 ((port_init Machine.zero).prio PendSV_IRQn) :=
  pendsv_more_urgent (Config.alternate 72) Machine.zero 1 rfl (by decide)

end ChibiOS
